import Mathlib

/-!
Verification of the request-handling stage of the MinBFT core
(`core/request.go`).  The Go source builds the pipeline from small
closure factories; each factory's returned closure is embedded here as a
Lean function.  Abstract collaborators (the sequence capturer, the
request applier, the client state, ...) become explicit parameters, and
side effects (messages handed to handlers, timers started, panics)
become explicit values, so every observable behaviour of a closure is a
component of its result.
-/

namespace MinBFT

/-- A client request: `messages.Request` with fields `ClientId`, `Seq`,
`Payload` (`request.Msg` in the Go source). -/
structure Request where
  clientId : Nat
  seq : Nat
  payload : List Nat
  deriving DecidableEq, Repr

/-- A `messages.Prepare` message body: view number, replica id of the
primary, and the embedded client request. -/
structure Prepare where
  view : Nat
  replicaId : Nat
  request : Request
  deriving DecidableEq, Repr

/-- A `messages.Reply` message body, as assembled by the request
executor. -/
structure Reply where
  replicaId : Nat
  clientId : Nat
  seq : Nat
  result : List Nat
  deriving DecidableEq, Repr

/-- Modelled from the spec: the helper `isPrimary` of the core package is
not under `src/`; the spec (§3, Glossary) defines the primary of a view
by `primaryId = view mod n`.  `isPrimary view id n` tells whether replica
`id` is the primary of `view` among `n` replicas. -/
def isPrimary (view id n : Nat) : Bool := view % n == id

/-- Observable side effects of the request applier closure returned by
`makeRequestApplier`: handing a Prepare to the generated-UI-message
handler, or starting the request timer for a client in a view (the
latter never happens in the current code, but is listed so that its
absence is expressible). -/
inductive Effect where
  | generatedUIMessage (p : Prepare)
  | startTimer (clientID : Nat) (view : Nat)
  deriving DecidableEq, Repr

/-- Tells whether an applier effect is a request-timer start. -/
def isStartTimer : Effect → Bool
  | .startTimer _ _ => true
  | _ => false

/-- The closure returned by `makeRequestApplier` (request.go:154-176).
`view` is the value returned by the `viewProvider` at the moment of the
call.  It computes `isPrimary view id n`; exactly on the primary path it
constructs a Prepare carrying the view, the replica's own id and the
request, and hands it to the generated-UI-message handler.  It always
returns a nil error (`Option.none`). -/
def requestApplier (id n : Nat) (view : Nat) (request : Request) :
    List Effect × Option String :=
  if isPrimary view id n then
    ([.generatedUIMessage { view := view, replicaId := id, request := request }], none)
  else
    ([], none)

/-- Invocations the request processor closure performs on its
collaborators, in order. -/
inductive ProcAction where
  | captureSeq
  | applyRequest
  | releaseSeq
  deriving DecidableEq, Repr

/-- Result of one run of the request processor closure: the ordered list
of collaborator invocations, the returned `new` flag and the returned
error. -/
structure ProcResult where
  actions : List ProcAction
  new : Bool
  err : Option String
  deriving DecidableEq, Repr

/-- The closure returned by `makeRequestProcessor` (request.go:138-152),
parameterized by the observable behaviour of its collaborators:
`capture request` is the `new` flag returned by `captureSeq`, and
`apply request` is the error returned by `applyRequest` (`none` for a
nil error).  It first invokes `captureSeq`; on `new = false` it returns
`(false, nil)` at once.  Otherwise `releaseSeq` is deferred (so it runs
after the applier on every remaining path); an applier error is wrapped
with `fmt.Errorf("Failed to apply Request: %s", err)` and returned with
`new = false`, and on success the processor returns `(true, nil)`. -/
def requestProcessor (capture : Request → Bool) (apply : Request → Option String)
    (request : Request) : ProcResult :=
  let new := capture request
  if !new then
    { actions := [.captureSeq], new := false, err := none }
  else
    match apply request with
    | some e =>
        { actions := [.captureSeq, .applyRequest, .releaseSeq],
          new := false,
          err := some ("Failed to apply Request: " ++ e) }
    | none =>
        { actions := [.captureSeq, .applyRequest, .releaseSeq],
          new := true,
          err := none }

/-- A sample request used by concrete witnesses. -/
def sampleRequest : Request := { clientId := 1, seq := 1, payload := [7] }

/-- Claim C1: the request processor first invokes `captureSeq`; if the
sequence is not new it returns `new = false` with a nil error and never
invokes the applier; if it is new and the applier succeeds, it invokes
the applier before releasing and returns `new = true` with a nil
error. -/
theorem requestProcessor_capture_first_and_success
    (capture : Request → Bool) (apply : Request → Option String) (request : Request) :
    ((requestProcessor capture apply request).actions.head? = some .captureSeq) ∧
    (capture request = false →
      requestProcessor capture apply request =
        { actions := [.captureSeq], new := false, err := none }) ∧
    (capture request = true → apply request = none →
      requestProcessor capture apply request =
        { actions := [.captureSeq, .applyRequest, .releaseSeq],
          new := true, err := none }) := by
  refine ⟨?_, ?_, ?_⟩
  · unfold requestProcessor
    cases h : capture request <;> simp [h]
    cases apply request <;> simp
  · intro h
    simp [requestProcessor, h]
  · intro h h'
    simp [requestProcessor, h, h']

/-- Witness for C1 at concrete collaborators: a capturer reporting
not-new yields `(false, nil)` with the applier never invoked, and a
capturer reporting new with a succeeding applier yields `(true, nil)`. -/
theorem requestProcessor_capture_first_and_success_witness :
    requestProcessor (fun _ => false) (fun _ => none) sampleRequest =
      { actions := [.captureSeq], new := false, err := none } ∧
    requestProcessor (fun _ => true) (fun _ => none) sampleRequest =
      { actions := [.captureSeq, .applyRequest, .releaseSeq],
        new := true, err := none } :=
  ⟨(requestProcessor_capture_first_and_success (fun _ => false) (fun _ => none)
      sampleRequest).2.1 rfl,
   (requestProcessor_capture_first_and_success (fun _ => true) (fun _ => none)
      sampleRequest).2.2 rfl rfl⟩

/-- Claim C9: when the sequence is new but the applier fails, the
processor still invokes the release function (after the applier) and
returns `new = false` together with a non-nil error wrapping the
applier's error. -/
theorem requestProcessor_applier_error
    (capture : Request → Bool) (apply : Request → Option String)
    (request : Request) (e : String) :
    capture request = true → apply request = some e →
    requestProcessor capture apply request =
      { actions := [.captureSeq, .applyRequest, .releaseSeq],
        new := false,
        err := some ("Failed to apply Request: " ++ e) } := by
  intro h h'
  simp [requestProcessor, h, h']

/-- Witness for C9: with a capturer reporting new and an applier failing
with "boom", the processor releases, returns `new = false` and the
wrapped error. -/
theorem requestProcessor_applier_error_witness :
    requestProcessor (fun _ => true) (fun _ => some "boom") sampleRequest =
      { actions := [.captureSeq, .applyRequest, .releaseSeq],
        new := false,
        err := some ("Failed to apply Request: " ++ "boom") } :=
  requestProcessor_applier_error (fun _ => true) (fun _ => some "boom")
    sampleRequest "boom" rfl rfl

/-- Claim C2: the request applier returns a nil error in all cases;
exactly when the replica's own id is the primary of the current view
(`primaryId = view mod n`) it hands to the generated-UI-message handler
a Prepare carrying that view, the replica's own id and the request;
otherwise it produces no message. -/
theorem requestApplier_primary_emits_prepare
    (id n : Nat) (view : Nat) (request : Request) :
    ((requestApplier id n view request).2 = none) ∧
    (view % n = id →
      (requestApplier id n view request).1 =
        [.generatedUIMessage { view := view, replicaId := id, request := request }]) ∧
    (view % n ≠ id → (requestApplier id n view request).1 = []) := by
  refine ⟨?_, ?_, ?_⟩
  · unfold requestApplier
    split <;> rfl
  · intro h
    simp [requestApplier, isPrimary, h]
  · intro h
    simp [requestApplier, isPrimary, h]

/-- Witness for C2: with `n = 3`, `view = 0`, replica 0 (the primary)
emits the Prepare wrapping the request and replica 1 (a backup) emits
nothing. -/
theorem requestApplier_primary_emits_prepare_witness :
    (requestApplier 0 3 0 sampleRequest).1 =
      [.generatedUIMessage { view := 0, replicaId := 0, request := sampleRequest }] ∧
    (requestApplier 1 3 0 sampleRequest).1 = [] :=
  ⟨(requestApplier_primary_emits_prepare 0 3 0 sampleRequest).2.1 (by decide),
   (requestApplier_primary_emits_prepare 1 3 0 sampleRequest).2.2 (by decide)⟩

/-- Claim C8: the request applier never starts a request timer: the list
of effects it produces contains no timer-start effect, on the primary
path as well as the backup path. -/
theorem requestApplier_no_timer_start
    (id n : Nat) (view : Nat) (request : Request) :
    (requestApplier id n view request).1.filter isStartTimer = [] := by
  unfold requestApplier
  split <;> rfl

/-- Claim C10: the applier built by `makeRequestApplier` returns a nil
error for every request, so when the processor is wired with it the
error branch is unreachable: the wired processor's error is always nil
and its `new` return equals the flag reported by `captureSeq`. -/
theorem requestProcessor_wired_with_applier
    (id n : Nat) (view : Nat) (capture : Request → Bool) (request : Request) :
    ((requestApplier id n view request).2 = none) ∧
    ((requestProcessor capture (fun r => (requestApplier id n view r).2)
        request).err = none) ∧
    ((requestProcessor capture (fun r => (requestApplier id n view r).2)
        request).new = capture request) := by
  have happ : ∀ r : Request, (requestApplier id n view r).2 = none := by
    intro r
    unfold requestApplier
    split <;> rfl
  refine ⟨happ request, ?_, ?_⟩ <;>
    cases h : capture request <;>
      simp [requestProcessor, h, happ]

/-- Outcome of one entry into the operation executor closure returned by
`makeOperationExecutor` (request.go:212-224): either the operation was
delivered to the consumer, or the executor panicked on the concurrency
guard. -/
inductive ExecOutcome where
  | delivered (op : List Nat)
  | panicked (msg : String)
  deriving DecidableEq, Repr

/-- One sequential entry into the operation executor closure, given the
value of the atomic `busy` flag at entry.  `atomic.SwapUint32` sets the
flag and returns its old value; a nonzero old value panics (the flag
stays set), otherwise the operation is delivered to the consumer and the
flag is stored back to zero.  The result pairs the outcome with the
flag's value when the entry finishes. -/
def operationExecutor (busy : Bool) (op : List Nat) : ExecOutcome × Bool :=
  if busy then (.panicked "Concurrent operation execution detected", true)
  else (.delivered op, false)

/-- Claim C3: an entry that observes the busy flag set panics; an entry
that observes it clear proceeds without panicking, delivers the
operation to the consumer and clears the flag again. -/
theorem operationExecutor_guard (op : List Nat) :
    operationExecutor true op =
      (.panicked "Concurrent operation execution detected", true) ∧
    operationExecutor false op = (.delivered op, false) := by
  constructor <;> rfl

/-- Control position of one thread invoking the operation executor:
before entry; past a successful swap of the busy flag with the call
`consumer.Deliver` in progress; returned from the executor with the
result future still unresolved; future resolved; or panicked on the
guard. -/
inductive TPos where
  | idle
  | inDeliver
  | returned
  | resolved
  | stuck
  deriving DecidableEq, Repr

/-- State of the interleaved executions of the operation executor: the
shared atomic `busy` flag, each thread's position, and whether any
thread has hit the concurrency-guard panic. -/
structure ExecSys where
  busy : Bool
  pos : Nat → TPos
  panicOccurred : Bool

/-- Pointwise update of a thread-position map. -/
def updPos (f : Nat → TPos) (i : Nat) (v : TPos) : Nat → TPos :=
  fun j => if j = i then v else f j

/-- One atomic step of thread `i` against the operation executor.  From
`idle` the thread performs the `atomic.SwapUint32`: if the flag was set
it panics, otherwise it holds the flag with `consumer.Deliver` in
progress.  From `inDeliver`, `Deliver` returns and the thread stores the
flag back to zero — note this happens when the call returns, not when
the result future resolves.  From `returned` the result future resolves.
Finished or panicked threads take no further steps. -/
def estep (s : ExecSys) (i : Nat) : ExecSys :=
  match s.pos i with
  | .idle =>
      if s.busy then
        { s with pos := updPos s.pos i .stuck, panicOccurred := true }
      else
        { busy := true, pos := updPos s.pos i .inDeliver,
          panicOccurred := s.panicOccurred }
  | .inDeliver =>
      { busy := false, pos := updPos s.pos i .returned,
        panicOccurred := s.panicOccurred }
  | .returned =>
      { s with pos := updPos s.pos i .resolved }
  | .resolved => s
  | .stuck => s

/-- Initial state: flag clear, every thread idle, no panic. -/
def execInit : ExecSys :=
  { busy := false, pos := fun _ => .idle, panicOccurred := false }

/-- Run a schedule (a list of thread ids, each taking one step) from the
initial state. -/
def runExec (t : List Nat) : ExecSys := t.foldl estep execInit

/-- Counterexample to claim C4 as stated: in the schedule where thread 0
enters the executor, `Deliver` returns (clearing the busy flag), and
then thread 1 enters, the run reaches — without any panic — a state
where thread 1's delivery is in progress while thread 0's delivered
operation is still outstanding (its result future not resolved).  The
core thus does initiate a second delivery while a previous result
future is pending. -/
theorem operationExecutor_second_delivery_while_pending :
    (runExec [0, 0, 1]).pos 0 = .returned ∧
    (runExec [0, 0, 1]).pos 1 = .inDeliver ∧
    (runExec [0, 0, 1]).panicOccurred = false := by
  refine ⟨rfl, rfl, rfl⟩

/-- Invariant of the executor system: the busy flag is set whenever some
thread is inside `Deliver`, and at most one thread is inside `Deliver`. -/
def ExecInv (s : ExecSys) : Prop :=
  (s.busy = false → ∀ i, s.pos i ≠ .inDeliver) ∧
  (∀ i j, s.pos i = .inDeliver → s.pos j = .inDeliver → i = j)

/-- Updating a thread's position changes it at that thread. -/
theorem updPos_self (f : Nat → TPos) (i : Nat) (v : TPos) :
    updPos f i v i = v := by
  simp [updPos]

/-- Updating a thread's position leaves other threads unchanged. -/
theorem updPos_other (f : Nat → TPos) (i : Nat) (v : TPos) (j : Nat)
    (h : j ≠ i) : updPos f i v j = f j := by
  simp [updPos, h]

/-- The invariant is preserved by every step. -/
theorem estep_preserves_inv (s : ExecSys) (i : Nat) (h : ExecInv s) :
    ExecInv (estep s i) := by
  obtain ⟨hbusy, huniq⟩ := h
  cases hp : s.pos i with
  | idle =>
    cases hb : s.busy with
    | true =>
      have e : estep s i =
          { s with pos := updPos s.pos i TPos.stuck, panicOccurred := true } := by
        simp [estep, hp, hb]
      rw [e]
      refine ⟨?_, ?_⟩
      · intro hb' j
        have hfb : s.busy = false := hb'
        rw [hb] at hfb
        exact Bool.noConfusion hfb
      · intro a b ha hb'
        have ha' : updPos s.pos i TPos.stuck a = TPos.inDeliver := ha
        have hb'' : updPos s.pos i TPos.stuck b = TPos.inDeliver := hb'
        by_cases hai : a = i
        · rw [hai, updPos_self] at ha'
          exact absurd ha' (by decide)
        · by_cases hbi : b = i
          · rw [hbi, updPos_self] at hb''
            exact absurd hb'' (by decide)
          · rw [updPos_other _ _ _ _ hai] at ha'
            rw [updPos_other _ _ _ _ hbi] at hb''
            exact huniq a b ha' hb''
    | false =>
      have e : estep s i =
          { busy := true, pos := updPos s.pos i TPos.inDeliver,
            panicOccurred := s.panicOccurred } := by
        simp [estep, hp, hb]
      rw [e]
      refine ⟨?_, ?_⟩
      · intro hb' j
        have hfb : true = false := hb'
        exact Bool.noConfusion hfb
      · intro a b ha hb'
        have ha' : updPos s.pos i TPos.inDeliver a = TPos.inDeliver := ha
        have hb'' : updPos s.pos i TPos.inDeliver b = TPos.inDeliver := hb'
        by_cases hai : a = i
        · by_cases hbi : b = i
          · rw [hai, hbi]
          · rw [updPos_other _ _ _ _ hbi] at hb''
            exact absurd hb'' (hbusy hb b)
        · rw [updPos_other _ _ _ _ hai] at ha'
          exact absurd ha' (hbusy hb a)
  | inDeliver =>
    have e : estep s i =
        { busy := false, pos := updPos s.pos i TPos.returned,
          panicOccurred := s.panicOccurred } := by
      simp [estep, hp]
    rw [e]
    refine ⟨?_, ?_⟩
    · intro _ j hj
      have hj' : updPos s.pos i TPos.returned j = TPos.inDeliver := hj
      by_cases hji : j = i
      · rw [hji, updPos_self] at hj'
        exact absurd hj' (by decide)
      · rw [updPos_other _ _ _ _ hji] at hj'
        exact hji (huniq j i hj' hp)
    · intro a b ha hb'
      have ha' : updPos s.pos i TPos.returned a = TPos.inDeliver := ha
      by_cases hai : a = i
      · rw [hai, updPos_self] at ha'
        exact absurd ha' (by decide)
      · rw [updPos_other _ _ _ _ hai] at ha'
        exact absurd (huniq a i ha' hp) hai
  | returned =>
    have e : estep s i = { s with pos := updPos s.pos i TPos.resolved } := by
      simp [estep, hp]
    rw [e]
    refine ⟨?_, ?_⟩
    · intro hb' j hj
      have hfb : s.busy = false := hb'
      have hj' : updPos s.pos i TPos.resolved j = TPos.inDeliver := hj
      by_cases hji : j = i
      · rw [hji, updPos_self] at hj'
        exact absurd hj' (by decide)
      · rw [updPos_other _ _ _ _ hji] at hj'
        exact hbusy hfb j hj'
    · intro a b ha hb'
      have ha' : updPos s.pos i TPos.resolved a = TPos.inDeliver := ha
      have hb'' : updPos s.pos i TPos.resolved b = TPos.inDeliver := hb'
      by_cases hai : a = i
      · rw [hai, updPos_self] at ha'
        exact absurd ha' (by decide)
      · by_cases hbi : b = i
        · rw [hbi, updPos_self] at hb''
          exact absurd hb'' (by decide)
        · rw [updPos_other _ _ _ _ hai] at ha'
          rw [updPos_other _ _ _ _ hbi] at hb''
          exact huniq a b ha' hb''
  | resolved =>
    have e : estep s i = s := by
      simp [estep, hp]
    rw [e]
    exact ⟨hbusy, huniq⟩
  | stuck =>
    have e : estep s i = s := by
      simp [estep, hp]
    rw [e]
    exact ⟨hbusy, huniq⟩

/-- The invariant holds along every schedule. -/
theorem runExec_inv (t : List Nat) : ExecInv (runExec t) := by
  have hinit : ExecInv execInit := by
    refine ⟨?_, ?_⟩
    · intro _ i
      simp [execInit]
    · intro i j hi _
      simp [execInit] at hi
  suffices h : ∀ (u : List Nat) (s : ExecSys), ExecInv s → ExecInv (u.foldl estep s) by
    exact h t execInit hinit
  intro u
  induction u with
  | nil => exact fun s hs => hs
  | cons i u ih =>
      intro s hs
      exact ih (estep s i) (estep_preserves_inv s i hs)

/-- Claim C4, amended: at every moment at most one call to
`RequestConsumer.Deliver` is in progress — entered and not yet
returned — because a second entry while the busy flag is held panics
instead of delivering.  The flag is released when `Deliver` returns,
before the result future resolves, so the guarantee does not extend
until resolution of the future. -/
theorem operationExecutor_deliver_mutual_exclusion
    (t : List Nat) (i j : Nat)
    (hi : (runExec t).pos i = .inDeliver)
    (hj : (runExec t).pos j = .inDeliver) : i = j :=
  (runExec_inv t).2 i j hi hj

/-- Witness for the amended C4: thread 0 of the one-step schedule is the
unique thread inside `Deliver`. -/
theorem operationExecutor_deliver_mutual_exclusion_witness :
    (runExec [0]).pos 0 = .inDeliver ∧ (0 : Nat) = 0 :=
  ⟨rfl, operationExecutor_deliver_mutual_exclusion [0] 0 0 rfl rfl⟩

/-- Per-client sequence lifecycle state: the latest captured, prepared
and retired sequence numbers (zero when none yet). -/
structure ClientState where
  lastCaptured : Nat
  lastPrepared : Nat
  lastRetired : Nat
  deriving DecidableEq, Repr

/-- Modelled from the spec: `PrepareRequestSeq` of
`core/internal/clientstate` is not under `src/`.  Per §4.2, preparing a
sequence number requires it to be captured — otherwise the attempt is a
precondition-order violation reported as an error — and returns
`new = true`, advancing `lastPrepared`, exactly when the number exceeds
`lastPrepared`. -/
def prepareRequestSeq (s : ClientState) (seq : Nat) :
    Except String (Bool × ClientState) :=
  if s.lastCaptured < seq then .error "request ID is not captured"
  else if s.lastPrepared < seq then .ok (true, { s with lastPrepared := seq })
  else .ok (false, s)

/-- Modelled from the spec: `RetireRequestSeq` of
`core/internal/clientstate` is not under `src/`.  Per §4.2, retiring a
sequence number requires it to be prepared — otherwise the attempt is a
precondition-order violation reported as an error — and returns
`new = true`, advancing `lastRetired`, exactly when the number exceeds
`lastRetired`. -/
def retireRequestSeq (s : ClientState) (seq : Nat) :
    Except String (Bool × ClientState) :=
  if s.lastPrepared < seq then .error "request ID is not prepared"
  else if s.lastRetired < seq then .ok (true, { s with lastRetired := seq })
  else .ok (false, s)

/-- Result of a Go function that either panics or returns normally. -/
inductive PanicOr (α : Type) where
  | panicked (msg : String)
  | ok (a : α)

/-- The closure returned by `makeRequestSeqPreparer` (request.go:239-252):
it calls `PrepareRequestSeq` on the client's state; a reported error is
panicked, otherwise the underlying `new` flag is returned (`false` when
not new, `true` when new).  The updated client state is carried along. -/
def requestSeqPreparer (s : ClientState) (request : Request) :
    PanicOr (Bool × ClientState) :=
  match prepareRequestSeq s request.seq with
  | .error e => .panicked e
  | .ok (new, s1) => if !new then .ok (false, s1) else .ok (true, s1)

/-- The closure returned by `makeRequestSeqRetirer` (request.go:256-269):
it calls `RetireRequestSeq` on the client's state; a reported error is
panicked, otherwise the underlying `new` flag is returned. -/
def requestSeqRetirer (s : ClientState) (request : Request) :
    PanicOr (Bool × ClientState) :=
  match retireRequestSeq s request.seq with
  | .error e => .panicked e
  | .ok (new, s1) => if !new then .ok (false, s1) else .ok (true, s1)

/-- Claim C5: the preparer and the retirer panic exactly when the
underlying client state reports an error for the attempt, and when no
error is reported they return the client state's `new` flag. -/
theorem requestSeq_preparer_retirer_panic_on_error
    (s : ClientState) (request : Request) :
    (∀ e, prepareRequestSeq s request.seq = .error e →
      requestSeqPreparer s request = .panicked e) ∧
    (∀ new s1, prepareRequestSeq s request.seq = .ok (new, s1) →
      requestSeqPreparer s request = .ok (new, s1)) ∧
    (∀ e, retireRequestSeq s request.seq = .error e →
      requestSeqRetirer s request = .panicked e) ∧
    (∀ new s1, retireRequestSeq s request.seq = .ok (new, s1) →
      requestSeqRetirer s request = .ok (new, s1)) := by
  refine ⟨?_, ?_, ?_, ?_⟩
  · intro e h
    simp [requestSeqPreparer, h]
  · intro new s1 h
    cases new <;> simp [requestSeqPreparer, h]
  · intro e h
    simp [requestSeqRetirer, h]
  · intro new s1 h
    cases new <;> simp [requestSeqRetirer, h]

/-- Witness for C5: preparing an uncaptured sequence panics with the
underlying error; retiring a prepared, not yet retired sequence returns
the `new = true` flag. -/
theorem requestSeq_preparer_retirer_panic_on_error_witness :
    requestSeqPreparer { lastCaptured := 0, lastPrepared := 0, lastRetired := 0 }
      sampleRequest = .panicked "request ID is not captured" ∧
    requestSeqRetirer { lastCaptured := 1, lastPrepared := 1, lastRetired := 0 }
      sampleRequest =
      .ok (true, { lastCaptured := 1, lastPrepared := 1, lastRetired := 1 }) :=
  ⟨(requestSeq_preparer_retirer_panic_on_error
      { lastCaptured := 0, lastPrepared := 0, lastRetired := 0 }
      sampleRequest).1 "request ID is not captured" rfl,
   (requestSeq_preparer_retirer_panic_on_error
      { lastCaptured := 1, lastPrepared := 1, lastRetired := 0 }
      sampleRequest).2.2.2 true
      { lastCaptured := 1, lastPrepared := 1, lastRetired := 1 } rfl⟩

/-- Events of the per-client request-timer subsystem: arming a timer for
a client with a view number, stopping it, and its expiry (fire). -/
inductive TEvent where
  | start (c v : Nat)
  | stop (c : Nat)
  | fire (c : Nat)
  deriving DecidableEq, Repr

/-- The client a timer event concerns. -/
def eventClient : TEvent → Nat
  | .start c _ => c
  | .stop c => c
  | .fire c => c

/-- Armed request timers: for each client, the view number captured when
its timer was last armed, if the timer is running. -/
structure TimerState where
  armed : Nat → Option Nat

/-- Pointwise update of the armed-timer map. -/
def updTimer (f : Nat → Option Nat) (c : Nat) (v : Option Nat) :
    Nat → Option Nat :=
  fun j => if j = c then v else f j

/-- Modelled from the spec: `StartRequestTimer` / `StopRequestTimer` of
`core/internal/clientstate` are not under `src/`; per §4.8 and §9
starting an already-running timer replaces it and stopping disarms it.
The callback armed by the closure of `makeRequestTimerStarter`
(request.go:273-280) captures the `view` argument of the starter; when
the timer fires, the callback logs a warning naming the client and that
view and invokes the timeout handler with that view.  A step folds one
event into the timer state and the list of handler invocations, each
recorded as the pair (clientID, view passed to the handler). -/
def tstep (x : TimerState × List (Nat × Nat)) (e : TEvent) :
    TimerState × List (Nat × Nat) :=
  match e with
  | .start c v => ({ armed := updTimer x.1.armed c (some v) }, x.2)
  | .stop c => ({ armed := updTimer x.1.armed c none }, x.2)
  | .fire c =>
      match x.1.armed c with
      | some v => ({ armed := updTimer x.1.armed c none }, x.2 ++ [(c, v)])
      | none => x

/-- Run a sequence of timer events from the state with no timer armed
and no handler invocation yet. -/
def runTimers (t : List TEvent) : TimerState × List (Nat × Nat) :=
  t.foldl tstep ({ armed := fun _ => none }, [])

/-- A step for an event of a different client does not change whether
and how a client's timer is armed. -/
theorem tstep_armed_other (x : TimerState × List (Nat × Nat)) (e : TEvent)
    (c : Nat) (h : eventClient e ≠ c) :
    (tstep x e).1.armed c = x.1.armed c := by
  cases e with
  | start c' v =>
      have hne : c ≠ c' := fun hc => h (hc.symm)
      simp [tstep, updTimer, hne]
  | stop c' =>
      have hne : c ≠ c' := fun hc => h (hc.symm)
      simp [tstep, updTimer, hne]
  | fire c' =>
      have hne : c ≠ c' := fun hc => h (hc.symm)
      cases harm : x.1.armed c' <;> simp [tstep, harm, updTimer, hne]

/-- Folding events that concern only other clients preserves a client's
armed timer. -/
theorem foldl_armed_other (u : List TEvent)
    (x : TimerState × List (Nat × Nat)) (c : Nat)
    (hu : ∀ e ∈ u, eventClient e ≠ c) :
    (u.foldl tstep x).1.armed c = x.1.armed c := by
  induction u generalizing x with
  | nil => rfl
  | cons e u ih =>
      have he : eventClient e ≠ c := hu e (List.mem_cons_self e u)
      have hu' : ∀ e' ∈ u, eventClient e' ≠ c :=
        fun e' he' => hu e' (List.mem_cons_of_mem e he')
      calc (List.foldl tstep x (e :: u)).1.armed c
          = ((u.foldl tstep (tstep x e))).1.armed c := rfl
        _ = (tstep x e).1.armed c := ih (tstep x e) hu'
        _ = x.1.armed c := tstep_armed_other x e c he

/-- Claim C6: a request timer armed for client `c` with view `v` that
expires before being stopped invokes the timeout handler with exactly
the view supplied at arming time: after any earlier events `t` and any
interposed events `u` not concerning `c` (other clients' timers may be
armed, stopped or fire, with any views), the fire event for `c` appends
exactly the handler invocation `(c, v)`. -/
theorem requestTimer_fires_with_armed_view
    (t u : List TEvent) (c v : Nat)
    (hu : ∀ e ∈ u, eventClient e ≠ c) :
    (runTimers ((t ++ TEvent.start c v :: u) ++ [TEvent.fire c])).2 =
      (runTimers (t ++ TEvent.start c v :: u)).2 ++ [(c, v)] := by
  have harm : (runTimers (t ++ TEvent.start c v :: u)).1.armed c = some v := by
    unfold runTimers
    have hsplit : t ++ TEvent.start c v :: u = (t ++ [TEvent.start c v]) ++ u := by
      simp
    rw [hsplit, List.foldl_append]
    rw [foldl_armed_other u _ c hu]
    rw [List.foldl_append]
    show (tstep _ (TEvent.start c v)).1.armed c = some v
    simp [tstep, updTimer]
  have hfold : runTimers ((t ++ TEvent.start c v :: u) ++ [TEvent.fire c]) =
      tstep (runTimers (t ++ TEvent.start c v :: u)) (TEvent.fire c) := by
    unfold runTimers
    rw [List.foldl_append]
    rfl
  rw [hfold]
  show (tstep _ (TEvent.fire c)).2 = _
  simp [tstep, harm]

/-- Witness for C6: with an unrelated timer for client 5 armed in view 9
between the arming for client 3 in view 2 and its expiry, the fire for
client 3 invokes the handler with view 2. -/
theorem requestTimer_fires_with_armed_view_witness :
    (runTimers (([] ++ TEvent.start 3 2 :: [TEvent.start 5 9]) ++
        [TEvent.fire 3])).2 =
      (runTimers ([] ++ TEvent.start 3 2 :: [TEvent.start 5 9])).2 ++ [(3, 2)] :=
  requestTimer_fires_with_armed_view [] [TEvent.start 5 9] 3 2 (by decide)

/-- Actions of the request executor closure and of the goroutine it
spawns, in program order. -/
inductive RExecAction where
  | execOperation (op : List Nat)
  | signReply (r : Reply)
  | handleGeneratedMessage (r : Reply)
  deriving DecidableEq, Repr

/-- The closure returned by `makeRequestExecutor` (request.go:190-208):
it hands the request payload to the operation executor; the spawned
goroutine, once `result` is received from the result channel, assembles
a Reply with `ReplicaId = id`, `ClientId` and `Seq` copied from the
request, and `Result = result`, signs it with the replica signer, and
then hands it to the generated-message handler.  The parameter `result`
is the value received from the channel; the returned list is the ordered
sequence of collaborator invocations. -/
def requestExecutor (id : Nat) (request : Request) (result : List Nat) :
    List RExecAction :=
  let reply : Reply :=
    { replicaId := id, clientId := request.clientId,
      seq := request.seq, result := result }
  [.execOperation request.payload, .signReply reply,
   .handleGeneratedMessage reply]

/-- Claim C7: for every request and delivered result, the executor
assembles a Reply whose replica id is the replica's own, whose client id
and sequence number are copied unchanged from the request and whose
result is the delivered result, and it signs that Reply before handing
the same Reply to the generated-message handler. -/
theorem requestExecutor_reply_fields (id : Nat) (request : Request)
    (result : List Nat) :
    ∃ reply : Reply,
      requestExecutor id request result =
        [.execOperation request.payload, .signReply reply,
         .handleGeneratedMessage reply] ∧
      reply.replicaId = id ∧ reply.clientId = request.clientId ∧
      reply.seq = request.seq ∧ reply.result = result :=
  ⟨_, rfl, rfl, rfl, rfl, rfl⟩

end MinBFT
